import Mathlib

/-!
Shallow embedding of the slack-bot webhook service:
the signature verifier (src/lib/verify-slack-request.ts),
the event webhook handler (POST /custom-bot/events in src/index.ts)
and the background processing handler (POST /api/process-message in src/index.ts).
JavaScript strings are modelled as Lean strings, optional or possibly
absent JSON fields as Option String, and JavaScript truthiness of a
string-valued field (undefined and the empty string are falsy) by `truthy`.
External capabilities (HMAC-SHA256 via crypto.subtle, text generation,
the outbound chat.postMessage call) are parameters of the embedded
functions, as the spec treats them as opaque capabilities.
-/

/-- JavaScript truthiness of a possibly absent string field:
`undefined` and the empty string are falsy, every other string is truthy. -/
abbrev truthy (o : Option String) : Prop := o.getD "" ≠ ""

/-- JavaScript string trimming on both ends, as used by `.trim()`. -/
def jsTrim (s : String) : String :=
  ⟨((s.data.dropWhile Char.isWhitespace).reverse.dropWhile Char.isWhitespace).reverse⟩

/-- Model of JavaScript `parseInt(s, 10)`: skip leading whitespace, read an
optional sign, then the longest digit prefix; `none` models NaN. -/
def jsParseInt (s : String) : Option Int :=
  let cs := s.data.dropWhile Char.isWhitespace
  let signed : Int × List Char :=
    match cs with
    | '-' :: r => (-1, r)
    | '+' :: r => (1, r)
    | _ => (1, cs)
  let digits := signed.2.takeWhile Char.isDigit
  if digits.isEmpty then none
  else some (signed.1 * (digits.foldl (fun a c => a * 10 + (c.toNat - 48)) 0 : Nat))

/-- Hex rendering of one byte as in `b.toString(16).padStart(2, "0")`:
lowercase hexadecimal digits, left-padded with zeros to width two. -/
def byteHexChars (b : Nat) : List Char :=
  let ds := Nat.toDigits 16 b
  if 2 ≤ ds.length then ds else List.replicate (2 - ds.length) '0' ++ ds

/-- Hex rendering of a byte sequence, as in
`Array.from(new Uint8Array(bytes)).map(hex).join("")`. -/
def hexOfBytes (bs : List Nat) : String :=
  ⟨(bs.map byteHexChars).flatten⟩

/-- The replay-window test of verifySlackRequest:
`Math.abs(now - parseInt(timestamp, 10)) > 60 * 5`.  When the parse yields
NaN the comparison is false in JavaScript, so the request is not rejected. -/
def replayRejected (ts : String) (now : Int) : Bool :=
  match jsParseInt ts with
  | some t => decide (300 < (now - t).natAbs)
  | none => false

/-- The signature the verifier computes:
`"v0=" + hex(hmacSHA256(secret, "v0:" + timestamp + ":" + rawBody))`,
with the HMAC-SHA256 capability passed in as `hmac`. -/
def expectedSignature (signingSecret ts rawBody : String)
    (hmac : String → String → List Nat) : String :=
  "v0=" ++ hexOfBytes (hmac signingSecret ("v0:" ++ ts ++ ":" ++ rawBody))

/-- Embedding of `verifySlackRequest` (src/lib/verify-slack-request.ts).
The two headers are `none` when absent; `now` is the wall clock in seconds;
`hmac` is the crypto.subtle HMAC-SHA256 capability. -/
def verifySlackRequest (timestamp signature : Option String)
    (rawBody signingSecret : String) (now : Int)
    (hmac : String → String → List Nat) : Bool :=
  match timestamp, signature with
  | some ts, some sg =>
    if ts = "" then false
    else if sg = "" then false
    else if replayRejected ts now then false
    else expectedSignature signingSecret ts rawBody hmac == sg
  | _, _ => false

example : jsParseInt "100" = some 100 := by decide
example : jsParseInt "abc" = none := by decide
example : jsParseInt " -42x" = some (-42) := by decide
example : hexOfBytes [0, 255, 10] = "00ff0a" := by decide
example : verifySlackRequest (some "100") (some "v0=00") "b" "k" 150
    (fun _ _ => [0]) = true := by decide
example : verifySlackRequest none (some "v0=00") "b" "k" 150
    (fun _ _ => [0]) = false := by decide
example : verifySlackRequest (some "1000") (some "v0=00") "b" "k" 1500
    (fun _ _ => [0]) = false := by decide

/-- One attempted match of the tail of the mention pattern `<@[^>]+>` just
after `<@` was seen: a nonempty run of characters other than the closing
angle bracket, then the closing angle bracket.  Returns the rest of the
input after the match, or `none` when there is no match here. -/
def matchMention (cs : List Char) : Option (List Char) :=
  match cs.dropWhile (fun c => c ≠ '>') with
  | '>' :: rest => if (cs.takeWhile (fun c => c ≠ '>')).isEmpty then none else some rest
  | _ => none

/-- Fuel-indexed left-to-right global replacement of `<@[^>]+>` by the empty
string, as performed by `text.replace(/<@[^>]+>/g, "")`.  When the pattern
fails to match at a position the scan advances one character, exactly as the
regex engine retries at the next position.  Fuel at least the length of the
input makes the result independent of the fuel. -/
def replaceMentionsFuel : Nat → List Char → List Char
  | 0, cs => cs
  | _ + 1, [] => []
  | n + 1, '<' :: '@' :: rest =>
    match matchMention rest with
    | some rest2 => replaceMentionsFuel n rest2
    | none => '<' :: replaceMentionsFuel n ('@' :: rest)
  | n + 1, c :: rest => c :: replaceMentionsFuel n rest

/-- `text.replace(/<@[^>]+>/g, "")` on a whole string. -/
def cleanMentions (s : String) : String :=
  ⟨replaceMentionsFuel s.data.length s.data⟩

example : (jsTrim (cleanMentions "<@BOT> <@BOT> hello")) = "hello" := by decide
example : (jsTrim (cleanMentions "<@U123> write about the sea")) = "write about the sea" := by decide
example : (jsTrim (cleanMentions "<@BOT>")) = "" := by decide
example : cleanMentions "<@> hi" = "<@> hi" := by decide

/-- The nested Slack event of an event_callback payload.  Fields that are
optional in the JSON (channel_type, subtype, bot_id, text) are Options. -/
structure SlackEvent where
  type : String
  user : String
  channel : String
  channel_type : Option String
  subtype : Option String
  bot_id : Option String
  text : Option String
deriving DecidableEq

/-- The parsed webhook body.  `type` discriminates; `challenge` is read only
for url_verification payloads and `event` only for event_callback payloads,
matching how the handler probes the parsed JSON at runtime. -/
structure WebhookBody where
  type : String
  challenge : String
  event : SlackEvent
deriving DecidableEq

/-- Bodies of the JSON responses the webhook handler can produce. -/
inductive RespBody where
  | okTrue
  | challengeResp (challenge : String)
  | errorMsg (msg : String)
deriving DecidableEq

/-- Observable actions of the webhook handler: invoking the signature
verifier (with its result) and publishing a payload to the queue transport. -/
inductive HAction where
  | verified (ok : Bool)
  | published (url : String) (payload : SlackEvent)
deriving DecidableEq

/-- Result of one webhook handler invocation: HTTP status, response body,
and the trace of observable actions in order. -/
structure HandlerResult where
  status : Nat
  body : RespBody
  trace : List HAction
deriving DecidableEq

/-- The text field of an event where the code has already established its
presence, or the empty string. -/
def textOf (e : SlackEvent) : String := e.text.getD ""

/-- Embedding of the `POST /custom-bot/events` handler of src/index.ts.
`secret`, `botToken`, `baseUrl` are the environment variables (the empty
string models an unset variable); `hmac` is the HMAC capability used by the
verifier; `tsHeader` and `sigHeader` are the two Slack signature headers;
`rawBody` is the raw request body and `body` its JSON parse. -/
def handleSlackEvents (secret botToken baseUrl : String)
    (hmac : String → String → List Nat)
    (tsHeader sigHeader : Option String) (now : Int)
    (rawBody : String) (body : WebhookBody) : HandlerResult :=
  if secret = "" ∨ botToken = "" then
    { status := 500, body := .errorMsg "Missing env vars", trace := [] }
  else if body.type = "url_verification" then
    { status := 200, body := .challengeResp body.challenge, trace := [] }
  else
    let valid := verifySlackRequest tsHeader sigHeader rawBody secret now hmac
    if valid = false then
      { status := 401, body := .errorMsg "Invalid signature", trace := [.verified valid] }
    else if body.type ≠ "event_callback" then
      { status := 200, body := .okTrue, trace := [.verified valid] }
    else
      let event := body.event
      if event.type = "message" ∧ event.channel_type = some "im" then
        if truthy event.bot_id ∨ event.subtype = some "bot_message" then
          { status := 200, body := .okTrue, trace := [.verified valid] }
        else if ¬ (truthy event.text ∧ 0 < (jsTrim (textOf event)).length) ∨
            ¬ ¬ truthy event.subtype then
          { status := 200, body := .okTrue, trace := [.verified valid] }
        else
          { status := 200, body := .okTrue,
            trace := [.verified valid,
              .published (baseUrl ++ "/api/process-message") event] }
      else if event.type = "app_mention" then
        if ¬ (truthy event.text ∧ 0 < (jsTrim (textOf event)).length) then
          { status := 200, body := .okTrue, trace := [.verified valid] }
        else
          let cleanText := jsTrim (cleanMentions (textOf event))
          if cleanText = "" then
            { status := 200, body := .okTrue, trace := [.verified valid] }
          else
            { status := 200, body := .okTrue,
              trace := [.verified valid,
                .published (baseUrl ++ "/api/process-message")
                  { event with text := some cleanText }] }
      else
        { status := 200, body := .okTrue, trace := [.verified valid] }

/-- Outcome of the opaque generation capability: a generated text, or a
thrown error. -/
inductive GenResult where
  | ok (text : String)
  | thrown
deriving DecidableEq

/-- Parsed JSON of the chat.postMessage response; `ok` is the explicit
success indicator the handler checks, `error` the error detail it logs. -/
structure PostResult where
  ok : Bool
  error : Option String
deriving DecidableEq

/-- Observable actions of the background processing handler, in order:
invoking the generation capability, invoking the outbound delivery
capability (with its success flag), and the Duplicate Guard mark. -/
inductive PAction where
  | generated (prompt : String)
  | posted (channel text : String) (ok : Bool)
  | marked
deriving DecidableEq

/-- Result of one background processing invocation: HTTP status, response
body, and the ordered trace of observable actions. -/
structure ProcResult where
  status : Nat
  body : RespBody
  trace : List PAction
deriving DecidableEq

/-- JavaScript template-literal interpolation of a possibly absent string:
an undefined field renders as the literal text "undefined". -/
def jsTemplateStr (o : Option String) : String := o.getD "undefined"

/-- The prompt handed to the generation capability:
`Write a poem about the following prompt: ${event.text}`. -/
def promptOf (e : SlackEvent) : String :=
  "Write a poem about the following prompt: " ++ jsTemplateStr e.text

/-- Modelled from the spec: the Duplicate Guard markProcessed invocation is
not present in src — only the comment "Mark event as processed only after
successful response" marks the spot in the success branch of the
`POST /api/process-message` handler.  Per spec section 4.3 it is invoked
exactly there, after the outbound delivery reports success. -/
def markProcessedTrace : List PAction := [PAction.marked]

/-- Embedding of the `POST /api/process-message` handler of src/index.ts.
`gen` is the generation capability (applied to the full prompt), `post` the
outbound chat.postMessage capability (channel, text), and `body` the JSON
parse of the request body (`none` models a parse failure, which the
surrounding try/catch turns into a 500 response). -/
def processMessage (gen : String → GenResult)
    (post : String → String → PostResult)
    (body : Option SlackEvent) : ProcResult :=
  match body with
  | none => { status := 500, body := .errorMsg "Error processing message with AI", trace := [] }
  | some event =>
    match gen (promptOf event) with
    | .thrown =>
      { status := 500, body := .errorMsg "Error processing message with AI",
        trace := [.generated (promptOf event)] }
    | .ok text =>
      let result := post event.channel text
      if result.ok then
        { status := 200, body := .okTrue,
          trace := [.generated (promptOf event),
            .posted event.channel text true] ++ markProcessedTrace }
      else
        { status := 500, body := .errorMsg "Failed to send message to Slack",
          trace := [.generated (promptOf event),
            .posted event.channel text false] }

/-- Number of outbound delivery attempts recorded in a trace. -/
def postedCount (l : List PAction) : Nat :=
  (l.filter fun a => match a with | .posted _ _ _ => true | _ => false).length

theorem expectedSignature_ne_empty (k ts b : String) (hmac : String → String → List Nat) :
    expectedSignature k ts b hmac ≠ "" := by
  unfold expectedSignature
  intro h
  have h2 := congrArg String.data h
  simp [String.data_append] at h2

theorem replayRejected_false_iff (ts : String) (now : Int) :
    replayRejected ts now = false ↔
      (jsParseInt ts = none ∨ ∃ t, jsParseInt ts = some t ∧ (now - t).natAbs ≤ 300) := by
  unfold replayRejected
  cases h : jsParseInt ts with
  | none => simp
  | some t => simp [decide_eq_false_iff_not, Nat.not_lt]

/-- Claim C1 (amended): verifySlackRequest returns true iff both headers are
present and non-empty, the timestamp either fails to parse as an integer
(parseInt yields NaN, which the replay comparison cannot reject) or parses
to t with the elapsed time from now to t at most 300 seconds, and the
signature header is exactly v0= followed by the lowercase-hex HMAC-SHA256,
keyed by the secret, of "v0:" + timestamp + ":" + rawBody; when either
header is absent it returns false rather than throwing. -/
theorem verify_iff_C1 (timestamp signature : Option String)
    (rawBody signingSecret : String) (now : Int)
    (hmac : String → String → List Nat) :
    verifySlackRequest timestamp signature rawBody signingSecret now hmac = true ↔
      ∃ ts sg, timestamp = some ts ∧ signature = some sg ∧ ts ≠ "" ∧
        (jsParseInt ts = none ∨ ∃ t, jsParseInt ts = some t ∧ (now - t).natAbs ≤ 300) ∧
        sg = expectedSignature signingSecret ts rawBody hmac := by
  cases timestamp with
  | none => simp [verifySlackRequest]
  | some ts =>
    cases signature with
    | none => simp [verifySlackRequest]
    | some sg =>
      constructor
      · intro h
        simp only [verifySlackRequest] at h
        split_ifs at h with h1 h2 h3
        have h3f : replayRejected ts now = false := by
          cases hb : replayRejected ts now with
          | false => rfl
          | true => exact absurd hb h3
        exact ⟨ts, sg, rfl, rfl, h1,
          (replayRejected_false_iff ts now).mp h3f, (eq_of_beq h).symm⟩
      · rintro ⟨ts2, sg2, hts, hsg, hne, hrw, hsig⟩
        obtain rfl := Option.some.inj hts
        obtain rfl := Option.some.inj hsg
        have hsgne : sg ≠ "" := by
          rw [hsig]; exact expectedSignature_ne_empty _ _ _ _
        have hr : replayRejected ts now = false :=
          (replayRejected_false_iff ts now).mpr hrw
        simp only [verifySlackRequest]
        rw [if_neg hne, if_neg hsgne, if_neg (by simp [hr]), hsig, beq_self_eq_true]

/-- Counterexample to claim C1 as stated: with a non-numeric timestamp
header the verifier returns true when the signature matches, although the
claimed freshness conjunct (the elapsed time from now to the timestamp is
at most 300 seconds) cannot hold because the timestamp has no integer
value.  The headers are present and the signature equality holds, so the
claimed if-and-only-if fails at this input. -/
theorem verify_nan_C1_counterexample :
    verifySlackRequest (some "abc") (some "v0=") "body" "secret" 1000
        (fun _ _ => []) = true ∧
      "v0=" = expectedSignature "secret" "abc" "body" (fun _ _ => []) ∧
      ¬ ∃ t : Int, jsParseInt "abc" = some t ∧ ((1000 : Int) - t).natAbs ≤ 300 := by
  refine ⟨rfl, rfl, ?_⟩
  rintro ⟨t, ht, -⟩
  rw [show jsParseInt "abc" = none from rfl] at ht
  exact Option.noConfusion ht

/-- Witness for verify_iff_C1 at a concrete input. -/
theorem verify_iff_C1_witness :
    verifySlackRequest (some "100") (some "v0=00") "b" "k" 150
      (fun _ _ => [0]) = true :=
  (verify_iff_C1 (some "100") (some "v0=00") "b" "k" 150 (fun _ _ => [0])).mpr
    ⟨"100", "v0=00", rfl, rfl, by decide, Or.inr ⟨100, by decide, by decide⟩,
      by decide⟩

/-- Claim C9 (amended): for every non-empty timestamp header whose integer
parse yields NaN, the replay-window check cannot reject the request and the
verifier result equals exactly the signature-equality comparison, for every
value of the clock: the 300-second freshness bound is not enforced. -/
theorem verify_nan_sig_only_C9 (ts : String) (sg : Option String)
    (rawBody signingSecret : String) (now : Int)
    (hmac : String → String → List Nat)
    (hne : ts ≠ "") (hnan : jsParseInt ts = none) :
    verifySlackRequest (some ts) sg rawBody signingSecret now hmac =
      decide (sg = some (expectedSignature signingSecret ts rawBody hmac)) := by
  cases sg with
  | none => simp [verifySlackRequest]
  | some s =>
    have hr : replayRejected ts now = false := by
      unfold replayRejected; rw [hnan]
    simp only [verifySlackRequest]
    rw [if_neg hne]
    by_cases hs : s = ""
    · subst hs
      rw [if_pos rfl]
      have hexp : ("" : String) ≠ expectedSignature signingSecret ts rawBody hmac :=
        fun h => expectedSignature_ne_empty _ _ _ _ h.symm
      simp [hexp]
    · rw [if_neg hs, if_neg (by simp [hr])]
      by_cases he : s = expectedSignature signingSecret ts rawBody hmac
      · subst he; simp
      · have he2 : expectedSignature signingSecret ts rawBody hmac ≠ s :=
          fun h => he h.symm
        simp [he, he2]

/-- Counterexample to claim C9 as stated: the empty timestamp header also
parses to NaN, and for it the result is not determined by the
signature-equality comparison: the signature comparison succeeds yet the
verifier returns false, because the empty header is rejected as falsy
before the replay-window check. -/
theorem verify_nan_C9_counterexample :
    jsParseInt "" = none ∧
      (some "v0=" : Option String) =
        some (expectedSignature "k" "" "raw" (fun _ _ => [])) ∧
      verifySlackRequest (some "") (some "v0=") "raw" "k" 0
        (fun _ _ => []) = false :=
  ⟨rfl, rfl, rfl⟩

/-- Witness for verify_nan_sig_only_C9 at a concrete input: a stale clock
value far beyond any window still verifies when the timestamp is
non-numeric and the signature matches. -/
theorem verify_nan_sig_only_C9_witness :
    verifySlackRequest (some "xyz") (some "v0=") "raw" "k" 99999
      (fun _ _ => []) = true := by
  rw [verify_nan_sig_only_C9 "xyz" (some "v0=") "raw" "k" 99999
    (fun _ _ => []) (by decide) (by decide)]
  decide

/-- A constant HMAC capability used by concrete instantiations; the empty
digest renders as the signature "v0=". -/
def hmacConst : String → String → List Nat := fun _ _ => []

/-- An event value with every field empty, for payloads whose event field
is never read. -/
def emptyEvent : SlackEvent :=
  { type := "", user := "", channel := "", channel_type := none,
    subtype := none, bot_id := none, text := none }

/-- Claim C5: for every payload whose type is url_verification, the webhook
handler responds 200 with the original challenge string and the signature
verifier is never invoked (the trace is empty), whatever the signature
headers are — in particular when they are absent. -/
theorem urlverification_C5 (secret botToken baseUrl : String)
    (hmac : String → String → List Nat) (tsHeader sigHeader : Option String)
    (now : Int) (rawBody : String) (body : WebhookBody)
    (h1 : secret ≠ "") (h2 : botToken ≠ "")
    (ht : body.type = "url_verification") :
    handleSlackEvents secret botToken baseUrl hmac tsHeader sigHeader now
        rawBody body =
      { status := 200, body := .challengeResp body.challenge, trace := [] } := by
  simp [handleSlackEvents, h1, h2, ht]

/-- Witness for urlverification_C5: scenario A, a challenge with no
signature headers at all. -/
theorem urlverification_C5_witness :
    handleSlackEvents "k" "t" "u" hmacConst none none 0 "raw"
        { type := "url_verification", challenge := "abc123", event := emptyEvent } =
      { status := 200, body := .challengeResp "abc123", trace := [] } :=
  urlverification_C5 "k" "t" "u" hmacConst none none 0 "raw"
    { type := "url_verification", challenge := "abc123", event := emptyEvent }
    (by decide) (by decide) rfl

/-- Claim C6: for every non-url_verification request on which the signature
verifier returns false, the webhook handler responds 401 with an error body
and nothing further happens: the trace records the failed verification and
no publish to the queue transport. -/
theorem invalid_signature_C6 (secret botToken baseUrl : String)
    (hmac : String → String → List Nat) (tsHeader sigHeader : Option String)
    (now : Int) (rawBody : String) (body : WebhookBody)
    (h1 : secret ≠ "") (h2 : botToken ≠ "")
    (ht : body.type ≠ "url_verification")
    (hv : verifySlackRequest tsHeader sigHeader rawBody secret now hmac = false) :
    handleSlackEvents secret botToken baseUrl hmac tsHeader sigHeader now
        rawBody body =
      { status := 401, body := .errorMsg "Invalid signature",
        trace := [.verified false] } := by
  simp [handleSlackEvents, h1, h2, ht, hv]

/-- Witness for invalid_signature_C6: scenario C, a direct message with
absent signature headers is rejected with 401 and no dispatch. -/
theorem invalid_signature_C6_witness :
    handleSlackEvents "k" "t" "u" hmacConst none none 0 "raw"
        { type := "event_callback", challenge := "", event := emptyEvent } =
      { status := 401, body := .errorMsg "Invalid signature",
        trace := [.verified false] } :=
  invalid_signature_C6 "k" "t" "u" hmacConst none none 0 "raw"
    { type := "event_callback", challenge := "", event := emptyEvent }
    (by decide) (by decide) (by decide) rfl

theorem string_length_pos_iff (t : String) : 0 < t.length ↔ t ≠ "" := by
  cases t with
  | mk data =>
    cases data with
    | nil => simp [String.length]
    | cons c cs => simp [String.length, String.ext_iff]

theorem hasText_iff (e : SlackEvent) :
    (truthy e.text ∧ 0 < (jsTrim (textOf e)).length) ↔
      jsTrim (textOf e) ≠ "" := by
  cases he : e.text with
  | none => simp [truthy, textOf, he, jsTrim]
  | some s =>
    by_cases hs : s = ""
    · subst hs
      simp [truthy, textOf, he, jsTrim]
    · simp [truthy, textOf, he, hs, string_length_pos_iff]

/-- A direct-message event whose text carries surrounding whitespace. -/
def imPadEvent : SlackEvent :=
  { type := "message", user := "U1", channel := "D1", channel_type := some "im",
    subtype := none, bot_id := none, text := some " hi " }

/-- Event callback wrapping imPadEvent. -/
def imPadBody : WebhookBody :=
  { type := "event_callback", challenge := "", event := imPadEvent }

/-- Counterexample to claim C2 as stated: for a qualifying direct message
whose text is " hi ", the payload handed to the dispatcher keeps the
original text " hi ", not the trimmed text "hi" the claim requires. -/
theorem im_untrimmed_C2_counterexample :
    (handleSlackEvents "k" "t" "u" hmacConst (some "0") (some "v0=") 0 "raw"
        imPadBody).trace =
      [HAction.verified true,
        HAction.published "u/api/process-message" imPadEvent] ∧
      imPadEvent.text = some " hi " ∧ jsTrim " hi " = "hi" ∧
      (" hi " : String) ≠ "hi" := by
  refine ⟨rfl, rfl, rfl, by decide⟩

/-- Claim C2 (amended): for an event_callback wrapping a message event, the
classification publishes to the dispatcher exactly when the channel kind is
direct ("im"), no truthy bot-originator marker is present, no truthy
subtype marker is present, and the trimmed text is non-empty; and in that
case the payload handed to the dispatcher is the original event, its text
verbatim and not trimmed. -/
theorem im_classify_C2 (secret botToken baseUrl : String)
    (hmac : String → String → List Nat) (tsHeader sigHeader : Option String)
    (now : Int) (rawBody : String) (body : WebhookBody)
    (h1 : secret ≠ "") (h2 : botToken ≠ "")
    (hv : verifySlackRequest tsHeader sigHeader rawBody secret now hmac = true)
    (ht : body.type = "event_callback")
    (hm : body.event.type = "message") :
    (handleSlackEvents secret botToken baseUrl hmac tsHeader sigHeader now
          rawBody body).trace =
        [HAction.verified true,
          HAction.published (baseUrl ++ "/api/process-message") body.event] ↔
      (body.event.channel_type = some "im" ∧
        ¬ truthy body.event.bot_id ∧ ¬ truthy body.event.subtype ∧
        jsTrim (textOf body.event) ≠ "") := by
  by_cases hc : body.event.channel_type = some "im"
  · by_cases hb : truthy body.event.bot_id
    · simp [handleSlackEvents, h1, h2, hv, ht, hm, hc, hb]
    · by_cases hsub : body.event.subtype = some "bot_message"
      · simp [handleSlackEvents, h1, h2, hv, ht, hm, hc, hb, hsub, truthy]
      · by_cases hst : truthy body.event.subtype
        · simp [handleSlackEvents, h1, h2, hv, ht, hm, hc, hb, hsub, hst]
        · by_cases htx : jsTrim (textOf body.event) = ""
          · have hnt : ¬ (truthy body.event.text ∧
                0 < (jsTrim (textOf body.event)).length) := by
              rw [hasText_iff]
              simp [htx]
            simp [handleSlackEvents, h1, h2, hv, ht, hm, hc, hb, hsub, hst,
              hnt, htx]
          · have hyt : truthy body.event.text ∧
                0 < (jsTrim (textOf body.event)).length :=
              (hasText_iff body.event).mpr htx
            simp [handleSlackEvents, h1, h2, hv, ht, hm, hc, hb, hsub, hst,
              hyt, htx]
  · simp [handleSlackEvents, h1, h2, hv, ht, hm, hc]

/-- A qualifying direct-message event, scenario B. -/
def imOkEvent : SlackEvent :=
  { type := "message", user := "U1", channel := "D1", channel_type := some "im",
    subtype := none, bot_id := none, text := some "ocean sunset" }

/-- Event callback wrapping imOkEvent. -/
def imOkBody : WebhookBody :=
  { type := "event_callback", challenge := "", event := imOkEvent }

/-- Witness for im_classify_C2 at a concrete input. -/
theorem im_classify_C2_witness :
    (handleSlackEvents "k" "t" "u" hmacConst (some "0") (some "v0=") 0 "raw"
        imOkBody).trace =
      [HAction.verified true,
        HAction.published "u/api/process-message" imOkEvent] :=
  (im_classify_C2 "k" "t" "u" hmacConst (some "0") (some "v0=") 0 "raw"
    imOkBody (by decide) (by decide) (by decide) rfl rfl).mpr
    ⟨rfl, by decide, by decide, by decide⟩

/-- Claim C3: for an event_callback wrapping an app-mention event with
non-empty trimmed text, when stripping every mention-marker substring and
trimming leaves something, the handler publishes the event with exactly
that cleaned text; when it leaves nothing, the event is ignored with 200
ok and no dispatch occurs. -/
theorem mention_clean_C3 (secret botToken baseUrl : String)
    (hmac : String → String → List Nat) (tsHeader sigHeader : Option String)
    (now : Int) (rawBody : String) (body : WebhookBody)
    (h1 : secret ≠ "") (h2 : botToken ≠ "")
    (hv : verifySlackRequest tsHeader sigHeader rawBody secret now hmac = true)
    (ht : body.type = "event_callback")
    (hm : body.event.type = "app_mention")
    (hx : jsTrim (textOf body.event) ≠ "") :
    (jsTrim (cleanMentions (textOf body.event)) ≠ "" →
      handleSlackEvents secret botToken baseUrl hmac tsHeader sigHeader now
          rawBody body =
        { status := 200, body := .okTrue,
          trace := [HAction.verified true,
            HAction.published (baseUrl ++ "/api/process-message")
              { body.event with
                  text := some (jsTrim (cleanMentions (textOf body.event))) }] }) ∧
    (jsTrim (cleanMentions (textOf body.event)) = "" →
      handleSlackEvents secret botToken baseUrl hmac tsHeader sigHeader now
          rawBody body =
        { status := 200, body := .okTrue,
          trace := [HAction.verified true] }) := by
  have hyt : truthy body.event.text ∧ 0 < (jsTrim (textOf body.event)).length :=
    (hasText_iff body.event).mpr hx
  constructor
  · intro hcln
    simp [handleSlackEvents, h1, h2, hv, ht, hm, hyt, hcln]
  · intro hcln
    simp [handleSlackEvents, h1, h2, hv, ht, hm, hyt, hcln]

/-- Scenario D mention event: two bot mentions followed by "hello". -/
def mentionDEvent : SlackEvent :=
  { type := "app_mention", user := "U2", channel := "C2", channel_type := none,
    subtype := none, bot_id := none, text := some "<@BOT> <@BOT> hello" }

/-- Event callback wrapping mentionDEvent. -/
def mentionDBody : WebhookBody :=
  { type := "event_callback", challenge := "", event := mentionDEvent }

/-- Scenario E mention event: a bot mention and nothing else. -/
def mentionEEvent : SlackEvent :=
  { type := "app_mention", user := "U2", channel := "C2", channel_type := none,
    subtype := none, bot_id := none, text := some "<@BOT>" }

/-- Event callback wrapping mentionEEvent. -/
def mentionEBody : WebhookBody :=
  { type := "event_callback", challenge := "", event := mentionEEvent }

/-- Witness for mention_clean_C3: scenario D publishes the cleaned prompt
"hello"; scenario E (mention only) is ignored with 200 ok and no dispatch. -/
theorem mention_clean_C3_witness :
    (handleSlackEvents "k" "t" "u" hmacConst (some "0") (some "v0=") 0 "raw"
        mentionDBody =
      { status := 200, body := .okTrue,
        trace := [HAction.verified true,
          HAction.published "u/api/process-message"
            { mentionDEvent with text := some "hello" }] }) ∧
    (handleSlackEvents "k" "t" "u" hmacConst (some "0") (some "v0=") 0 "raw"
        mentionEBody =
      { status := 200, body := .okTrue,
        trace := [HAction.verified true] }) :=
  ⟨(mention_clean_C3 "k" "t" "u" hmacConst (some "0") (some "v0=") 0 "raw"
      mentionDBody (by decide) (by decide) (by decide) rfl rfl (by decide)).1
      (by decide),
    (mention_clean_C3 "k" "t" "u" hmacConst (some "0") (some "v0=") 0 "raw"
      mentionEBody (by decide) (by decide) (by decide) rfl rfl (by decide)).2
      (by decide)⟩

/-- An app-mention event carrying both a subtype marker and a
bot-originator marker, with real text. -/
def mentionBotEvent : SlackEvent :=
  { type := "app_mention", user := "U2", channel := "C2", channel_type := none,
    subtype := some "bot_message", bot_id := some "B1", text := some "hello" }

/-- Event callback wrapping mentionBotEvent. -/
def mentionBotBody : WebhookBody :=
  { type := "event_callback", challenge := "", event := mentionBotEvent }

/-- Counterexample to claim C4 as stated: an app-mention event carrying
both a subtype marker and a bot-originator marker is still dispatched — the
mention branch never inspects those markers — so classification does not
yield Ignore for it. -/
theorem mention_markers_C4_counterexample :
    truthy mentionBotEvent.subtype ∧ truthy mentionBotEvent.bot_id ∧
      (handleSlackEvents "k" "t" "u" hmacConst (some "0") (some "v0=") 0 "raw"
          mentionBotBody).trace =
        [HAction.verified true,
          HAction.published "u/api/process-message"
            { mentionBotEvent with text := some "hello" }] := by
  refine ⟨by decide, by decide, rfl⟩

/-- Claim C4 (amended): for a direct-message event (message in an im
channel) carrying a truthy subtype marker or a truthy bot-originator
marker, classification ignores the event regardless of its text: the
handler responds 200 ok and no dispatch occurs.  App-mention events are
not filtered by these markers. -/
theorem im_markers_C4 (secret botToken baseUrl : String)
    (hmac : String → String → List Nat) (tsHeader sigHeader : Option String)
    (now : Int) (rawBody : String) (body : WebhookBody)
    (h1 : secret ≠ "") (h2 : botToken ≠ "")
    (hv : verifySlackRequest tsHeader sigHeader rawBody secret now hmac = true)
    (ht : body.type = "event_callback")
    (hm : body.event.type = "message")
    (hc : body.event.channel_type = some "im")
    (hmark : truthy body.event.subtype ∨ truthy body.event.bot_id) :
    handleSlackEvents secret botToken baseUrl hmac tsHeader sigHeader now
        rawBody body =
      { status := 200, body := .okTrue, trace := [HAction.verified true] } := by
  rcases hmark with hs | hb
  · by_cases hbm : body.event.subtype = some "bot_message"
    · simp [handleSlackEvents, h1, h2, hv, ht, hm, hc, hbm]
    · by_cases hb2 : truthy body.event.bot_id
      · simp [handleSlackEvents, h1, h2, hv, ht, hm, hc, hb2]
      · simp [handleSlackEvents, h1, h2, hv, ht, hm, hc, hs, hbm, hb2]
  · simp [handleSlackEvents, h1, h2, hv, ht, hm, hc, hb]

/-- A direct-message event with a system subtype. -/
def imSubEvent : SlackEvent :=
  { type := "message", user := "U1", channel := "D1", channel_type := some "im",
    subtype := some "channel_join", bot_id := none, text := some "hi" }

/-- Event callback wrapping imSubEvent. -/
def imSubBody : WebhookBody :=
  { type := "event_callback", challenge := "", event := imSubEvent }

/-- Witness for im_markers_C4 at a concrete input: a direct message with a
subtype marker and non-empty text is ignored with no dispatch. -/
theorem im_markers_C4_witness :
    handleSlackEvents "k" "t" "u" hmacConst (some "0") (some "v0=") 0 "raw"
        imSubBody =
      { status := 200, body := .okTrue, trace := [HAction.verified true] } :=
  im_markers_C4 "k" "t" "u" hmacConst (some "0") (some "v0=") 0 "raw"
    imSubBody (by decide) (by decide) (by decide) rfl rfl rfl
    (Or.inl (by decide))

/-- Claim C7: the background processing handler returns 200 ok exactly when
generation yields a text and delivery reports ok true; generation throwing
or a delivery response without ok true yields 500 with an error body; and
at most one delivery attempt occurs (no inline retry). -/
theorem process_status_C7 (gen : String → GenResult)
    (post : String → String → PostResult) (e : SlackEvent) :
    ((processMessage gen post (some e)).status = 200 ↔
        ∃ t, gen (promptOf e) = .ok t ∧ (post e.channel t).ok = true) ∧
    ((processMessage gen post (some e)).status = 200 →
      (processMessage gen post (some e)).body = .okTrue) ∧
    (gen (promptOf e) = .thrown →
      processMessage gen post (some e) =
        { status := 500, body := .errorMsg "Error processing message with AI",
          trace := [.generated (promptOf e)] }) ∧
    (∀ t, gen (promptOf e) = .ok t → (post e.channel t).ok = false →
      processMessage gen post (some e) =
        { status := 500, body := .errorMsg "Failed to send message to Slack",
          trace := [.generated (promptOf e), .posted e.channel t false] }) ∧
    postedCount (processMessage gen post (some e)).trace ≤ 1 := by
  cases hg : gen (promptOf e) with
  | thrown => simp [processMessage, hg, postedCount]
  | ok t =>
    by_cases hp : (post e.channel t).ok = true
    · simp [processMessage, hg, hp, postedCount, markProcessedTrace]
    · have hp2 : (post e.channel t).ok = false := by
        cases hb : (post e.channel t).ok
        · rfl
        · exact absurd hb hp
      simp [processMessage, hg, hp2, postedCount]

/-- A generation capability that always returns the text "poem". -/
def genOkConst : String → GenResult := fun _ => .ok "poem"

/-- A delivery capability that always reports success. -/
def postOkConst : String → String → PostResult := fun _ _ => { ok := true, error := none }

/-- Witness for process_status_C7 at a concrete input. -/
theorem process_status_C7_witness :
    (processMessage genOkConst postOkConst (some imOkEvent)).status = 200 :=
  (process_status_C7 genOkConst postOkConst imOkEvent).1.mpr ⟨"poem", rfl, rfl⟩

theorem append_marked_nil (pre suf : List PAction)
    (h : ([] : List PAction) = pre ++ PAction.marked :: suf) : False := by
  rcases pre with _ | ⟨a, pre⟩ <;> simp at h

theorem append_marked_one (x : PAction) (hx : x ≠ PAction.marked)
    (pre suf : List PAction) (h : [x] = pre ++ PAction.marked :: suf) : False := by
  rcases pre with _ | ⟨a, pre⟩
  · simp at h
    exact hx h.1
  · simp at h

theorem append_marked_two (x y : PAction) (hx : x ≠ PAction.marked)
    (hy : y ≠ PAction.marked) (pre suf : List PAction)
    (h : [x, y] = pre ++ PAction.marked :: suf) : False := by
  rcases pre with _ | ⟨a, pre⟩
  · simp at h
    exact hx h.1
  · rcases pre with _ | ⟨b, pre⟩
    · simp at h
      exact hy h.2.1
    · simp at h

theorem append_marked_three (x y : PAction) (hx : x ≠ PAction.marked)
    (hy : y ≠ PAction.marked) (pre suf : List PAction)
    (h : [x, y, PAction.marked] = pre ++ PAction.marked :: suf) :
    pre = [x, y] := by
  rcases pre with _ | ⟨a, pre⟩
  · simp at h
    exact absurd h.1 hx
  · rcases pre with _ | ⟨b, pre⟩
    · simp at h
      exact absurd h.2.1 hy
    · rcases pre with _ | ⟨c, pre⟩
      · simp at h
        rw [h.1, h.2.1]
      · simp at h

/-- Claim C8: in every trace of the background processing handler, the
Duplicate Guard mark happens only after a delivery attempt that reported
success — never before any delivery and never in a run whose delivery
failed — so a failed attempt stays eligible for a retry. -/
theorem mark_after_success_C8 (gen : String → GenResult)
    (post : String → String → PostResult) (body : Option SlackEvent) :
    (∀ pre suf,
        (processMessage gen post body).trace = pre ++ PAction.marked :: suf →
        ∃ ch t, PAction.posted ch t true ∈ pre) ∧
    (∀ ch t,
        PAction.posted ch t false ∈ (processMessage gen post body).trace →
        PAction.marked ∉ (processMessage gen post body).trace) := by
  cases body with
  | none =>
    constructor
    · intro pre suf h
      simp only [processMessage] at h
      exact (append_marked_nil pre suf h).elim
    · intro ch t hmem
      simp [processMessage] at hmem
  | some e =>
    cases hg : gen (promptOf e) with
    | thrown =>
      constructor
      · intro pre suf h
        simp only [processMessage, hg] at h
        exact (append_marked_one _ (by simp) pre suf h).elim
      · intro ch t hmem
        simp [processMessage, hg] at hmem
    | ok t =>
      by_cases hp : (post e.channel t).ok = true
      · constructor
        · intro pre suf h
          simp only [processMessage, hg, hp, if_true, markProcessedTrace,
            List.cons_append, List.nil_append] at h
          have hpre := append_marked_three _ _ (by simp) (by simp) pre suf h
          exact ⟨e.channel, t, by rw [hpre]; simp⟩
        · intro ch t2 hmem
          simp [processMessage, hg, hp, markProcessedTrace] at hmem
      · have hp2 : (post e.channel t).ok = false := by
          cases hb : (post e.channel t).ok
          · rfl
          · exact absurd hb hp
        constructor
        · intro pre suf h
          simp only [processMessage, hg, hp2, Bool.false_eq_true, if_false] at h
          exact (append_marked_two _ _ (by simp) (by simp) pre suf h).elim
        · intro ch t2 hmem
          simp [processMessage, hg, hp2]

/-- Witness for mark_after_success_C8: in a concrete successful run the
prefix before the mark contains a successful delivery. -/
theorem mark_after_success_C8_witness :
    ∃ ch t, PAction.posted ch t true ∈
      [PAction.generated (promptOf imOkEvent),
        PAction.posted imOkEvent.channel "poem" true] :=
  (mark_after_success_C8 genOkConst postOkConst (some imOkEvent)).1
    [PAction.generated (promptOf imOkEvent),
      PAction.posted imOkEvent.channel "poem" true] [] rfl

/-- Claim C10: for every request body that parses to an event, the
background processing handler unconditionally invokes the generation
capability on the prompt built from the body text field, and whenever
generation yields a text it invokes the delivery capability with that text
and the channel named in the body; it takes no signature material and
consults no duplicate guard. -/
theorem process_unconditional_C10 (gen : String → GenResult)
    (post : String → String → PostResult) (e : SlackEvent) :
    PAction.generated (promptOf e) ∈ (processMessage gen post (some e)).trace ∧
    (∀ t, gen (promptOf e) = .ok t →
      PAction.posted e.channel t ((post e.channel t).ok) ∈
        (processMessage gen post (some e)).trace) := by
  cases hg : gen (promptOf e) with
  | thrown => simp [processMessage, hg]
  | ok t =>
    by_cases hp : (post e.channel t).ok = true
    · simp [processMessage, hg, hp, markProcessedTrace]
    · have hp2 : (post e.channel t).ok = false := by
        cases hb : (post e.channel t).ok
        · rfl
        · exact absurd hb hp
      simp [processMessage, hg, hp2]

/-- Witness for process_unconditional_C10 at a concrete input. -/
theorem process_unconditional_C10_witness :
    PAction.generated (promptOf imOkEvent) ∈
      (processMessage genOkConst postOkConst (some imOkEvent)).trace ∧
    PAction.posted imOkEvent.channel "poem" true ∈
      (processMessage genOkConst postOkConst (some imOkEvent)).trace :=
  ⟨(process_unconditional_C10 genOkConst postOkConst imOkEvent).1,
    (process_unconditional_C10 genOkConst postOkConst imOkEvent).2 "poem" rfl⟩
